import Mathlib

/-!
Shallow embedding of the corgi-insurance-api core (risk scoring, pricing,
compliance rule evaluation, carrier routing, capacity allocation, and the
portfolio simulator), together with theorems settling the specification
claims about it.  Monetary amounts and multipliers are embedded as exact
rationals; Python's machine floats are modelled by exact arithmetic, and the
claims' rounding tolerances absorb the difference.  Each definition mirrors
one function of the source tree (`app/services/*.py`, `app/routers/*.py`).
-/

/-- Python's built-in `round` on a rational: round half to even (banker's
rounding), as used by `int(round(x))` in `app/services/pricing.py`. -/
def pyRound (q : ℚ) : ℤ :=
  let f : ℤ := ⌊q⌋
  let r : ℚ := q - f
  if r < 1/2 then f
  else if 1/2 < r then f + 1
  else if f % 2 = 0 then f else f + 1

/-- Python's `round(x, n)`: round to `n` decimal places, half to even. -/
def roundTo (n : ℕ) (q : ℚ) : ℚ :=
  (pyRound (q * (10 : ℚ) ^ n) : ℚ) / (10 : ℚ) ^ n

/-- Lookup in an association table with a default, modelling Python's
`dict.get(key, default)` on the multiplier tables of a pricing curve. -/
def lookupD (tbl : List (String × ℚ)) (k : String) (d : ℚ) : ℚ :=
  match tbl.find? (fun p => p.1 == k) with
  | some p => p.2
  | none => d

/-! ### Risk scoring (`app/services/risk.py`) -/

/-- Shipping quote request fields, as validated by `create_quote` in
`app/routers/quotes.py` (all five fields required). `declared_value` is in
dollars. -/
structure ShippingRequest where
  declared_value : ℚ
  item_category : String
  destination_state : String
  destination_risk : String
  service_level : String
deriving DecidableEq, Repr

/-- Payment-protection (ppi) quote request fields, as validated by
`create_quote`. `order_value` is in dollars; `age` and `tenure_months` also
populate the policyholder data used for risk scoring. -/
structure PpiRequest where
  order_value : ℚ
  term_months : ℤ
  age : ℤ
  tenure_months : ℤ
  job_category : String
  state : String
deriving DecidableEq, Repr

/-- A quote request for either product (`request_data` of `create_quote`). -/
inductive RequestData
  | shipping (r : ShippingRequest)
  | ppi (r : PpiRequest)
deriving DecidableEq, Repr

/-- The policyholder state used for compliance and appetite checks: the
destination state for shipping, the policyholder state for ppi
(`create_quote` lines 84-116). -/
def policyholderState : RequestData → String
  | .shipping r => r.destination_state
  | .ppi r => r.state

/-- The function `calculate_shipping_risk_score` of `app/services/risk.py`:
`0.02*(declared_value/1000)` plus the destination-risk, service-level and
high-value-category terms, rounded to 4 decimal places. Unknown
destination-risk strings score 0.0 and unknown service levels score 0.2
(the dict-lookup defaults of the source). -/
def calculate_shipping_risk_score (r : ShippingRequest) : ℚ :=
  let base_score := (0.02 : ℚ) * (r.declared_value / 1000)
  let dest_risk_score : ℚ :=
    if r.destination_risk == "low" then 0.0
    else if r.destination_risk == "medium" then 0.5
    else if r.destination_risk == "high" then 1.0
    else 0.0
  let service_score : ℚ :=
    if r.service_level == "ground" then 0.2
    else if r.service_level == "expedited" then 0.1
    else if r.service_level == "overnight" then 0.0
    else 0.2
  let category_score : ℚ :=
    if r.item_category ∈ ["electronics_high_value", "jewelry_high_value"]
    then 0.3 else 0.0
  roundTo 4 (base_score + dest_risk_score + service_score + category_score)

/-- The function `calculate_ppi_risk_score` of `app/services/risk.py`:
`0.02*(order_value/100) + 0.1*(term_months/6)` plus the age and tenure
penalties, rounded to 4 decimal places. -/
def calculate_ppi_risk_score (r : PpiRequest) : ℚ :=
  let base_score := (0.02 : ℚ) * (r.order_value / 100)
  let term_score := (0.1 : ℚ) * ((r.term_months : ℚ) / 6)
  let age_score : ℚ := if r.age < 25 then 0.3 else 0.0
  let tenure_score : ℚ := if r.tenure_months < 6 then 0.3 else 0.0
  roundTo 4 (base_score + term_score + age_score + tenure_score)

/-- The product-specific risk score computed by `calculate_risk_assessment`
before band mapping. -/
def riskScoreOf : RequestData → ℚ
  | .shipping r => calculate_shipping_risk_score r
  | .ppi r => calculate_ppi_risk_score r

/-- The function `map_risk_score_to_band` of `app/services/risk.py`: the
fixed step function from a score to (band, multiplier). -/
def map_risk_score_to_band (score : ℚ) : String × ℚ :=
  if score < 0.4 then ("A", 0.90)
  else if score < 0.8 then ("B", 1.00)
  else if score < 1.2 then ("C", 1.10)
  else if score < 1.6 then ("D", 1.25)
  else ("E", 1.40)

/-- The result of `calculate_risk_assessment` in `app/services/risk.py`. -/
structure RiskAssessment where
  risk_score : ℚ
  risk_band : String
  risk_multiplier : ℚ
deriving DecidableEq, Repr

/-- The function `calculate_risk_assessment` of `app/services/risk.py`:
product-specific score, then the shared band mapping. -/
def calculate_risk_assessment (req : RequestData) : RiskAssessment :=
  let score := riskScoreOf req
  let bm := map_risk_score_to_band score
  ⟨score, bm.1, bm.2⟩

/-! ### Pricing (`app/services/pricing.py`) -/

/-- A shipping pricing curve as read by `calculate_shipping_premium`: an
optional base rate (defaulting to 0.55) and the two alternatively named
multiplier tables per dimension.  An absent table is the empty list
(Python's `pricing_curve.get(name, {})`). -/
structure ShippingCurve where
  base_rate : Option ℚ := none
  category_multiplier : List (String × ℚ) := []
  category_multipliers : List (String × ℚ) := []
  destination_multiplier : List (String × ℚ) := []
  destination_multipliers : List (String × ℚ) := []
  service_level_multiplier : List (String × ℚ) := []
  service_multipliers : List (String × ℚ) := []
deriving DecidableEq, Repr

/-- Category multiplier lookup of `calculate_shipping_premium`: primary
table, then the alternate table, then 1.0. -/
def shippingCategoryMult (c : ShippingCurve) (cat : String) : ℚ :=
  lookupD c.category_multiplier cat (lookupD c.category_multipliers cat 1.0)

/-- Destination-risk multiplier lookup of `calculate_shipping_premium`. -/
def shippingDestMult (c : ShippingCurve) (dest : String) : ℚ :=
  lookupD c.destination_multiplier dest (lookupD c.destination_multipliers dest 1.0)

/-- Service-level multiplier lookup of `calculate_shipping_premium`. -/
def shippingServiceMult (c : ShippingCurve) (svc : String) : ℚ :=
  lookupD c.service_level_multiplier svc (lookupD c.service_multipliers svc 1.0)

/-- The function `calculate_shipping_premium` of `app/services/pricing.py`,
returning `(total_premium_cents, base_premium_cents)`; the remaining
breakdown entries are the input multipliers echoed back. -/
def calculate_shipping_premium (r : ShippingRequest) (risk_multiplier : ℚ)
    (partner_markup_pct : ℚ) (curve : ShippingCurve) : ℤ × ℤ :=
  let base_rate := curve.base_rate.getD 0.55
  let category_mult := shippingCategoryMult curve r.item_category
  let dest_mult := shippingDestMult curve r.destination_risk
  let service_mult := shippingServiceMult curve r.service_level
  let base_premium_dollars :=
    (r.declared_value / 100) * base_rate * category_mult * dest_mult * service_mult
  let total_premium_dollars :=
    base_premium_dollars * risk_multiplier * (1 + partner_markup_pct)
  (pyRound (total_premium_dollars * 100), pyRound (base_premium_dollars * 100))

/-- A ppi pricing curve as read by `calculate_ppi_premium`. -/
structure PpiCurve where
  base_rate : Option ℚ := none
  term_multiplier : List (String × ℚ) := []
  term_multipliers : List (String × ℚ) := []
  band_multiplier : List (String × ℚ) := []
  job_category_multiplier : List (String × ℚ) := []
  job_multipliers : List (String × ℚ) := []
deriving DecidableEq, Repr

/-- Term-bucket multiplier of `calculate_ppi_premium`: the bucket is chosen
by term length, looked up under the bucket's primary name, then its
alternate name, then a bucket-specific default. -/
def ppiTermMult (c : PpiCurve) (term_months : ℤ) : ℚ :=
  if term_months ≤ 6 then
    lookupD c.term_multiplier "<=6" (lookupD c.term_multipliers "6" 0.9)
  else if term_months ≤ 12 then
    lookupD c.term_multiplier "7-12" (lookupD c.term_multipliers "12" 1.0)
  else if term_months ≤ 18 then
    lookupD c.term_multiplier "13-18" (lookupD c.term_multipliers "18" 1.1)
  else
    lookupD c.term_multiplier "19-24" (lookupD c.term_multipliers "24" 1.25)

/-- Band multiplier of `calculate_ppi_premium`: 1.0 when no band is passed,
else looked up in the curve's `band_multiplier` table with default 1.0. -/
def ppiBandMult (c : PpiCurve) (risk_band : Option String) : ℚ :=
  match risk_band with
  | none => 1.0
  | some b => lookupD c.band_multiplier b 1.0

/-- Fixed age multiplier schedule of `calculate_ppi_premium`. -/
def ppiAgeMult (age : ℤ) : ℚ :=
  if age < 25 then 1.2
  else if age < 35 then 1.0
  else if age < 50 then 0.95
  else 1.1

/-- Fixed tenure multiplier schedule of `calculate_ppi_premium`. -/
def ppiTenureMult (tenure_months : ℤ) : ℚ :=
  if tenure_months < 6 then 1.3
  else if tenure_months < 12 then 1.1
  else 1.0

/-- Job-category multiplier of `calculate_ppi_premium`: the
`job_category_multiplier` table, or (only when that whole table is absent or
empty) the `job_multipliers` table, with default 1.0. -/
def ppiJobMult (c : PpiCurve) (job : String) : ℚ :=
  let tbl := if c.job_category_multiplier.isEmpty then c.job_multipliers
             else c.job_category_multiplier
  lookupD tbl job 1.0

/-- The function `calculate_ppi_premium` of `app/services/pricing.py`,
returning `(total_premium_cents, base_premium_cents)`. -/
def calculate_ppi_premium (r : PpiRequest) (risk_multiplier : ℚ)
    (partner_markup_pct : ℚ) (curve : PpiCurve) (risk_band : Option String) :
    ℤ × ℤ :=
  let base_rate := curve.base_rate.getD 0.80
  let base_premium_dollars :=
    (r.order_value / 100) * base_rate * ppiTermMult curve r.term_months *
      ppiBandMult curve risk_band * ppiAgeMult r.age *
      ppiTenureMult r.tenure_months * ppiJobMult curve r.job_category
  let total_premium_dollars :=
    base_premium_dollars * risk_multiplier * (1 + partner_markup_pct)
  (pyRound (total_premium_dollars * 100), pyRound (base_premium_dollars * 100))

/-! ### Carrier routing at quote time (`app/routers/quotes.py`, `create_quote`) -/

/-- Per-product appetite configuration of a carrier, as read by
`create_quote` from `appetite_json[product_code]`; a missing product entry
is the record with all defaults. -/
structure ProductAppetite where
  excluded_states : List String := []
  excluded_categories : List String := []
  max_declared_value : Option ℚ := none
  max_term_months : Option ℤ := none
  max_risk_band : Option String := none
  excluded_job_categories : List String := []
deriving DecidableEq, Repr

/-- Band ordering used by the ppi `max_risk_band` appetite check
(`band_order` dict in `create_quote`, default 5 for unknown bands). -/
def bandOrder (band : String) : ℤ :=
  if band == "A" then 1
  else if band == "B" then 2
  else if band == "C" then 3
  else if band == "D" then 4
  else if band == "E" then 5
  else 5

/-- A carrier as seen by the quote routing loop: its identifier, the
per-product appetite, the pricing curve for each product (`none` models a
missing curve, whose lookup raises and makes the loop skip the carrier),
and the advisory remaining-capacity value read for the current month
(`carrier_capacities.get(id, 0)`). -/
structure CarrierInfo where
  id : String
  shipping_appetite : ProductAppetite := {}
  ppi_appetite : ProductAppetite := {}
  shipping_curve : Option ShippingCurve := none
  ppi_curve : Option PpiCurve := none
  capacity : ℤ := 0
deriving DecidableEq, Repr

/-- The appetite configuration `create_quote` selects for the request's
product. -/
def appetiteFor (req : RequestData) (c : CarrierInfo) : ProductAppetite :=
  match req with
  | .shipping _ => c.shipping_appetite
  | .ppi _ => c.ppi_appetite

/-- The appetite-and-capacity filter of `create_quote` (lines 170-219):
excluded state, then the product-specific checks (excluded category and max
declared value for shipping; max term, max risk band and excluded job
category for ppi), then the advisory capacity read must be positive. -/
def carrierChecks (req : RequestData) (risk_band : String) (c : CarrierInfo) :
    Bool :=
  let ap := appetiteFor req c
  let state_ok := !(policyholderState req ∈ ap.excluded_states)
  let product_ok :=
    match req with
    | .shipping r =>
      (!(r.item_category ∈ ap.excluded_categories)) &&
        (match ap.max_declared_value with
         | none => true
         | some m => decide (r.declared_value ≤ m))
    | .ppi r =>
      (match ap.max_term_months with
       | none => true
       | some m => decide (r.term_months ≤ m)) &&
      (match ap.max_risk_band with
       | none => true
       | some mrb => decide (bandOrder risk_band ≤ bandOrder mrb)) &&
      (!(r.job_category ∈ ap.excluded_job_categories))
  state_ok && product_ok && decide (0 < c.capacity)

/-- Premium `create_quote` computes for one carrier: `calculate_premium`
with that carrier's own pricing curve for the request's product (the risk
band is passed for the ppi band multiplier).  `none` models the pricing
exception that makes the loop skip the carrier. -/
def carrierPremium (req : RequestData) (risk_band : String)
    (risk_multiplier partner_markup_pct : ℚ) (c : CarrierInfo) : Option ℤ :=
  match req with
  | .shipping r =>
    c.shipping_curve.map
      (fun cv => (calculate_shipping_premium r risk_multiplier partner_markup_pct cv).1)
  | .ppi r =>
    c.ppi_curve.map
      (fun cv => (calculate_ppi_premium r risk_multiplier partner_markup_pct cv (some risk_band)).1)

/-- Expected-margin formula of `create_quote` (line 239):
`premium - premium * 0.60 * risk_multiplier`, computed on the premium in
cents. -/
def expectedMargin (risk_multiplier : ℚ) (premium_cents : ℤ) : ℚ :=
  (premium_cents : ℚ) - (premium_cents : ℚ) * 0.60 * risk_multiplier

/-- One entry of `eligible_carrier_evaluations` in `create_quote`. -/
structure CarrierEval where
  carrier_id : String
  premium_cents : ℤ
  expected_margin : ℚ
deriving DecidableEq, Repr

/-- Evaluation of one carrier in the `create_quote` loop: `none` when the
carrier fails the appetite/capacity checks or its pricing raises, otherwise
the eligible evaluation entry. -/
def eligibleEval (req : RequestData) (risk_band : String)
    (risk_multiplier partner_markup_pct : ℚ) (c : CarrierInfo) :
    Option CarrierEval :=
  if carrierChecks req risk_band c then
    match carrierPremium req risk_band risk_multiplier partner_markup_pct c with
    | some p => some ⟨c.id, p, expectedMargin risk_multiplier p⟩
    | none => none
  else none

/-- The sort order of `create_quote` line 263
(`sort(key=lambda x: (-expected_margin, premium_cents))`): higher margin
first, lower premium as tie-break. -/
def quoteKeyLe (a b : CarrierEval) : Prop :=
  b.expected_margin < a.expected_margin ∨
    (a.expected_margin = b.expected_margin ∧ a.premium_cents ≤ b.premium_cents)

instance : DecidableRel quoteKeyLe := fun a b => by
  unfold quoteKeyLe; infer_instance

/-- Carrier selection of `create_quote` lines 156-267: evaluate every
carrier, sort the eligible evaluations by the quote key (Python's `sort` is
a stable ascending sort; a stable sorting algorithm models it exactly), and
take the first; `none` models the NoEligibleCarrier failure (HTTP 500 at
line 255). -/
def select_carrier (req : RequestData) (risk_band : String)
    (risk_multiplier partner_markup_pct : ℚ) (carriers : List CarrierInfo) :
    Option CarrierEval :=
  let eligible :=
    carriers.filterMap (eligibleEval req risk_band risk_multiplier partner_markup_pct)
  (List.insertionSort quoteKeyLe eligible).head?

/-! ### Capacity allocation (`app/services/routing.py`) -/

/-- The function `decrement_carrier_capacity` of `app/services/routing.py`,
for one (carrier, month) key.  `limit?` is the carrier row's
`capacity_monthly_limit` (`none` when the carrier does not exist); the state
is the `CarrierCapacity` row's `remaining_count` (`none` when no row exists
yet).  Source behaviour: no row → look up the carrier (absent → failure) and
create the row with `remaining_count = limit - 1`, reporting success; row
present → decrement only when `remaining_count > 0`, else failure with the
row unchanged. -/
def decrement_carrier_capacity (limit? : Option ℤ) (s : Option ℤ) :
    Bool × Option ℤ :=
  match s with
  | none =>
    match limit? with
    | none => (false, none)
    | some limit => (true, some (limit - 1))
  | some n => if 0 < n then (true, some (n - 1)) else (false, some n)

/-- Remaining count exposed by the read path
(`get_carrier_capacities_for_month`): the row's `remaining_count`, or the
carrier's monthly limit when no row exists. -/
def capacityRemaining (limit : ℤ) (s : Option ℤ) : ℤ :=
  s.getD limit

/-- Operations touching one (carrier, month) capacity counter: the bind-time
reserve (`decrement_carrier_capacity`) and the quote-time advisory read
(`get_carrier_capacities_for_month`, which never writes). -/
inductive CapOp
  | reserve
  | read
deriving DecidableEq, Repr

/-- Effect of one operation on the capacity row of a carrier with monthly
limit `limit`. -/
def applyCapacityOp (limit : ℤ) (op : CapOp) (s : Option ℤ) : Option ℤ :=
  match op with
  | .reserve => (decrement_carrier_capacity (some limit) s).2
  | .read => s

/-- Run a sequence of capacity operations from a given row state. -/
def runCapacityOpsFrom (limit : ℤ) : Option ℤ → List CapOp → Option ℤ
  | s, [] => s
  | s, op :: ops => runCapacityOpsFrom limit (applyCapacityOp limit op s) ops

/-- Run a sequence of capacity operations from the uninitialized state (no
`CarrierCapacity` row). -/
def runCapacityOps (limit : ℤ) (ops : List CapOp) : Option ℤ :=
  runCapacityOpsFrom limit none ops

/-! ### Fine-grained interleaving of concurrent reserves

`decrement_carrier_capacity` executes, for an existing row, a read of
`remaining_count` (the ORM query at lines 184-187) followed by a separate
conditional decrement-and-commit (lines 202-209).  Between the two steps of
one request, other requests may run: the model below splits each reserve
call into its read step and its write step, scheduled by process id. -/

/-- Phase of one in-flight reserve call. -/
inductive RmwPhase
  | idle
  | haveRead (v : ℤ)
  | finished (ok : Bool)
deriving DecidableEq, Repr

/-- Shared `remaining_count` plus the phase of each concurrent reserve. -/
structure RmwSystem where
  remaining : ℤ
  procs : List RmwPhase
deriving DecidableEq, Repr

/-- One scheduler step: run the next step of process `pid`.  An idle process
performs its ORM read; a process holding read value `v` performs the
conditional write (`if v > 0` then store `v - 1` and succeed else fail);
finished or out-of-range pids do nothing. -/
def rmwStep (sys : RmwSystem) (pid : ℕ) : RmwSystem :=
  match sys.procs.get? pid with
  | none => sys
  | some .idle =>
    { sys with procs := sys.procs.set pid (.haveRead sys.remaining) }
  | some (.haveRead v) =>
    if 0 < v then
      { remaining := v - 1, procs := sys.procs.set pid (.finished true) }
    else
      { sys with procs := sys.procs.set pid (.finished false) }
  | some (.finished _) => sys

/-- Run a schedule (list of process ids) from an initial system state. -/
def rmwRun (init : RmwSystem) (sched : List ℕ) : RmwSystem :=
  sched.foldl rmwStep init

/-- Initial state: counter at `k`, `n` concurrent reserve calls pending. -/
def rmwInit (k : ℤ) (n : ℕ) : RmwSystem :=
  ⟨k, List.replicate n .idle⟩

/-- Number of reserve calls that reported success. -/
def rmwSuccesses (sys : RmwSystem) : ℕ :=
  sys.procs.countP (fun p => p == RmwPhase.finished true)

/-- The atomic reserve the specification demands ("read remaining; if
remaining > 0, remaining -= 1, success; else fail" as one indivisible
step), acting on an initialized counter. -/
def atomicReserve (n : ℤ) : Bool × ℤ :=
  if 0 < n then (true, n - 1) else (false, n)

/-- Running `n` atomic reserves sequentially (equivalently, in any
interleaving, since each is indivisible) against a counter initialized to
`k`; returns (number of successes, final remaining count). -/
def atomicReserveRun (k : ℤ) : ℕ → ℕ × ℤ
  | 0 => (0, k)
  | n + 1 =>
    let prev := atomicReserveRun k n
    let step := atomicReserve prev.2
    (prev.1 + (if step.1 then 1 else 0), step.2)

/-! ### Compliance rule engine (`app/services/compliance.py`) -/

/-- The criteria dictionary of a compliance rule, with the eight predicate
keys `ComplianceEngine._evaluate_criteria` supports; `none` means the key is
absent. -/
structure RuleCriteria where
  state_in : Option (List String) := none
  item_category_in : Option (List String) := none
  min_age : Option ℤ := none
  min_tenure_months : Option ℤ := none
  declared_value_greater_than : Option ℚ := none
  age_less_than : Option ℤ := none
  tenure_months_less_than : Option ℤ := none
  term_months_greater_than : Option ℤ := none
deriving DecidableEq, Repr

/-- Truthiness of the criteria dictionary (`rule["criteria"]` in
`has_criteria`): an empty dictionary is falsy. -/
def criteriaIsEmpty (c : RuleCriteria) : Bool :=
  c.state_in.isNone && c.item_category_in.isNone && c.min_age.isNone &&
    c.min_tenure_months.isNone && c.declared_value_greater_than.isNone &&
    c.age_less_than.isNone && c.tenure_months_less_than.isNone &&
    c.term_months_greater_than.isNone

/-- A compliance rule as loaded from configuration: identifier, applicable
product, kind (`"disclosure"` or `"block"`), optional criteria, message. -/
structure ComplianceRule where
  id : String
  applies_to : String
  type : String
  criteria : Option RuleCriteria := none
  message : String := ""
deriving DecidableEq, Repr

/-- The flat evaluation context `evaluate_rules` builds from the request and
policyholder fields; `none` models an absent key (`context.get` returns the
per-criterion default). -/
structure ComplianceContext where
  state : Option String := none
  item_category : Option String := none
  age : Option ℤ := none
  tenure_months : Option ℤ := none
  declared_value : Option ℚ := none
  term_months : Option ℤ := none
deriving DecidableEq, Repr

/-- The list of per-criterion results `_evaluate_criteria` collects, in
source order; only present keys contribute. -/
def criteriaResults (c : RuleCriteria) (ctx : ComplianceContext) : List Bool :=
  (match c.state_in with
   | some l =>
     [match ctx.state with
      | some st => decide (st ∈ l)
      | none => false]
   | none => []) ++
  (match c.item_category_in with
   | some l =>
     [match ctx.item_category with
      | some cat => decide (cat ∈ l)
      | none => false]
   | none => []) ++
  (match c.min_age with
   | some m => [decide (ctx.age.getD 0 < m)]
   | none => []) ++
  (match c.min_tenure_months with
   | some m => [decide (ctx.tenure_months.getD 0 < m)]
   | none => []) ++
  (match c.declared_value_greater_than with
   | some t => [decide (t < ctx.declared_value.getD 0)]
   | none => []) ++
  (match c.age_less_than with
   | some t => [decide (ctx.age.getD 0 < t)]
   | none => []) ++
  (match c.tenure_months_less_than with
   | some t => [decide (ctx.tenure_months.getD 0 < t)]
   | none => []) ++
  (match c.term_months_greater_than with
   | some t => [decide (t < ctx.term_months.getD 0)]
   | none => [])

/-- The method `ComplianceEngine._evaluate_criteria`: all collected results
must hold and at least one criterion must have been recognized. -/
def evaluate_criteria (c : RuleCriteria) (ctx : ComplianceContext) : Bool :=
  let results := criteriaResults c ctx
  !results.isEmpty && results.all id

/-- Whether a rule applies in `evaluate_rules`: a rule with no criteria key
or an empty (falsy) criteria dictionary always applies; otherwise its
criteria are evaluated. -/
def ruleApplies (rule : ComplianceRule) (ctx : ComplianceContext) : Bool :=
  match rule.criteria with
  | none => true
  | some c => if criteriaIsEmpty c then true else evaluate_criteria c ctx

/-- Accumulator of the `evaluate_rules` loop: overall decision, disclosure
messages in order, applied rule ids in order. -/
structure ComplianceAcc where
  decision : String
  disclosures : List String
  rules_applied : List String
deriving DecidableEq, Repr

/-- Effect of one applying rule on the accumulator (`evaluate_rules` lines
72-82): record the rule id; a disclosure rule appends its message; a block
rule sets the decision to block and also appends its message. -/
def complianceStep (acc : ComplianceAcc) (rule : ComplianceRule) :
    ComplianceAcc :=
  let dis1 := if rule.type == "disclosure"
              then acc.disclosures ++ [rule.message] else acc.disclosures
  if rule.type == "block" then
    ⟨"block", dis1 ++ [rule.message], acc.rules_applied ++ [rule.id]⟩
  else
    ⟨acc.decision, dis1, acc.rules_applied ++ [rule.id]⟩

/-- The rule loop of `evaluate_rules`, from a given accumulator: rules for
other products are skipped, applying rules update the accumulator. -/
def evalRulesFrom (product : String) (ctx : ComplianceContext) :
    ComplianceAcc → List ComplianceRule → ComplianceAcc
  | acc, [] => acc
  | acc, rule :: rest =>
    let acc' :=
      if rule.applies_to == product then
        if ruleApplies rule ctx then complianceStep acc rule else acc
      else acc
    evalRulesFrom product ctx acc' rest

/-- The method `ComplianceEngine.evaluate_rules` (decision, disclosures and
applied-rule parts; the fresh report id is an audit tag outside this
model): start from decision `"allow"` with empty lists and fold the rules. -/
def evaluate_rules (rules : List ComplianceRule) (product : String)
    (ctx : ComplianceContext) : ComplianceAcc :=
  evalRulesFrom product ctx ⟨"allow", [], []⟩ rules

/-! ### Portfolio simulation (`app/services/simulate.py`)

The source draws from numpy's and Python's global pseudo-random generators.
Both are deterministic functions of their current state, and
`run_portfolio_simulation` overwrites both states with the fixed seed 42
before drawing.  The embedding models each generator as an explicit natural
state with a concrete deterministic transition (`lcgNext`) and models the
distributional samplers as deterministic functions of the state and the
distribution parameters; the exact numeric distribution is abstracted (the
normal sampler takes the dispersion parameter computed from the data in
place of an irrational standard deviation), which preserves exactly what the
claims depend on: every draw is a deterministic function of seed and
arguments. -/

/-- Deterministic PRNG state transition (linear congruential step). -/
def lcgNext (s : ℕ) : ℕ := (1103515245 * s + 12345) % 2147483648

/-- A uniform-in-`[0,1)` value read off a PRNG state, modelling
`random.random()`. -/
def lcgUnit (s : ℕ) : ℚ := (s : ℚ) / 2147483648

/-- One draw of the abstracted normal sampler (`np.random.normal`): a
deterministic function of the mean, the dispersion parameter and the numpy
generator state. -/
def normalDraw (mean spread : ℚ) (s : ℕ) : ℚ :=
  mean + spread * (lcgUnit s - 1/2)

/-- Model of `np.random.normal(mean, spread, n)`: `n` draws, advancing the
numpy generator state. -/
def normalDraws (mean spread : ℚ) : ℕ → ℕ → List ℚ × ℕ
  | 0, s => ([], s)
  | n + 1, s =>
    let (rest, s') := normalDraws mean spread n (lcgNext s)
    (normalDraw mean spread s :: rest, s')

/-- One draw of the abstracted exponential sampler
(`np.random.exponential(1000)`): non-negative, mean-1000-scaled. -/
def expDraw (s : ℕ) : ℚ := 1000 * (2 * lcgUnit s)

/-- Model of `np.random.exponential(1000, n)`: `n` draws, advancing the
state. -/
def expDraws : ℕ → ℕ → List ℚ × ℕ
  | 0, s => ([], s)
  | n + 1, s =>
    let (rest, s') := expDraws n (lcgNext s)
    (expDraw s :: rest, s')

/-- The per-draw loop of `_generate_scenarios_from_history` (lines 105-112)
over the base normal draws: with probability 5% (`random.random() < 0.05`,
consuming the Python generator) the draw is a tail event and is multiplied
by 3; otherwise the draw is floored at zero (`max(0, scenario)`). -/
def buildHistoryScenarios : List ℚ → ℕ → List ℚ × ℕ
  | [], s => ([], s)
  | d :: ds, s =>
    let v := if lcgUnit s < 0.05 then d * 3.0 else max 0 d
    let (rest, s') := buildHistoryScenarios ds (lcgNext s)
    (v :: rest, s')

/-- The per-draw loop of `_generate_synthetic_scenarios` (lines 129-135):
with probability 2% the draw is multiplied by 10, otherwise it is kept as
is. -/
def buildSyntheticScenarios : List ℚ → ℕ → List ℚ × ℕ
  | [], s => ([], s)
  | d :: ds, s =>
    let v := if lcgUnit s < 0.02 then d * 10.0 else d
    let (rest, s') := buildSyntheticScenarios ds (lcgNext s)
    (v :: rest, s')

/-- Mean of a list of rationals (`statistics.mean`; division by zero is the
Lean convention 0, a case the source never reaches). -/
def listMean (xs : List ℚ) : ℚ := xs.sum / (xs.length : ℚ)

/-- Sample dispersion of the historical premiums: the `n - 1`-denominator
sample variance, standing in for `statistics.stdev` as the dispersion
parameter fed to the abstracted normal sampler. -/
def sampleSpread (xs : List ℚ) : ℚ :=
  let m := listMean xs
  (xs.map (fun x => (x - m) ^ 2)).sum / ((xs.length : ℚ) - 1)

/-- The function `_generate_synthetic_scenarios`: exponential draws with the
2%/×10 tail loop.  Returns the values and both generator states. -/
def generate_synthetic_scenarios (scenario_count : ℕ) (npS pyS : ℕ) :
    List ℚ × ℕ × ℕ :=
  let (base, npS') := expDraws scenario_count npS
  let (out, pyS') := buildSyntheticScenarios base pyS
  (out, npS', pyS')

/-- The function `_generate_scenarios_from_history`: with no historical
premiums it falls back to the synthetic path; otherwise it fits the normal
sampler to the premium data (mean, and dispersion `mean * 0.3` for a single
data point) and runs the 5%/×3 tail loop over the draws. -/
def generate_scenarios_from_history (premiums : List ℤ) (scenario_count : ℕ)
    (npS pyS : ℕ) : List ℚ × ℕ × ℕ :=
  if premiums.isEmpty then generate_synthetic_scenarios scenario_count npS pyS
  else
    let ps : List ℚ := premiums.map (fun p => (p : ℚ))
    let mean_premium := listMean ps
    let spread := if 1 < ps.length then sampleSpread ps
                  else mean_premium * 0.3
    let (base, npS') := normalDraws mean_premium spread scenario_count npS
    let (out, pyS') := buildHistoryScenarios base pyS
    (out, npS', pyS')

/-- The function `_generate_scenarios`: the history path when a database
session is available (`history = some premiums`), else the synthetic path. -/
def generate_scenarios (scenario_count : ℕ) (history : Option (List ℤ))
    (npS pyS : ℕ) : List ℚ × ℕ × ℕ :=
  match history with
  | some premiums =>
    generate_scenarios_from_history premiums scenario_count npS pyS
  | none => generate_synthetic_scenarios scenario_count npS pyS

/-- Ascending sort (`sorted(scenarios)`). -/
def sortAsc (xs : List ℚ) : List ℚ :=
  xs.mergeSort (fun a b => decide (a ≤ b))

/-- The function `_calculate_var`: sort ascending, take the value at index
`int(confidence_level * n)` clamped to `[0, n-1]`; 0 for an empty list. -/
def calculate_var (xs : List ℚ) (confidence_level : ℚ) : ℚ :=
  if xs.isEmpty then 0
  else
    let sorted := sortAsc xs
    let idx : ℤ := max 0 (min ⌊confidence_level * (xs.length : ℚ)⌋
      ((xs.length : ℤ) - 1))
    sorted.getD idx.toNat 0

/-- The function `_calculate_tail_var`: mean of the values `≥ VaR`, falling
back to the VaR itself when none qualify. -/
def calculate_tail_var (xs : List ℚ) (confidence_level : ℚ) : ℚ :=
  if xs.isEmpty then 0
  else
    let v := calculate_var xs confidence_level
    let tail := xs.filter (fun x => decide (v ≤ x))
    if tail.isEmpty then v else listMean tail

/-- One row of the retention table built by `_calculate_retention_table`. -/
structure RetentionRow where
  retention : ℚ
  expected_loss : ℚ
  expected_ceded : ℚ
  reinsurance_premium : ℚ
  expected_net : ℚ
  cost_efficiency : ℚ
deriving DecidableEq, Repr

/-- The function `_calculate_retention_table`: per retention grid entry, the
mean retained and ceded losses, the reinsurance premium, the expected net
cost and the cost-efficiency quotient, rounded as in the source.  The
reinsurance parameters default to 0.1 and 0.2 when absent. -/
def calculate_retention_table (xs : List ℚ) (retention_grid : List ℚ)
    (rate_on_line? load? : Option ℚ) : List RetentionRow :=
  let rate_on_line := rate_on_line?.getD 0.1
  let load := load?.getD 0.2
  retention_grid.map (fun ret =>
    let expected_loss := (xs.map (fun v => min v ret)).sum / (xs.length : ℚ)
    let expected_ceded :=
      (xs.map (fun v => max 0 (v - ret))).sum / (xs.length : ℚ)
    let reinsurance_premium := expected_ceded * rate_on_line * (1 + load)
    let expected_net := expected_loss + reinsurance_premium
    let cost_efficiency := expected_net / max expected_loss 0.01
    ⟨ret, roundTo 2 expected_loss, roundTo 2 expected_ceded,
      roundTo 2 reinsurance_premium, roundTo 2 expected_net,
      roundTo 3 cost_efficiency⟩)

/-- The function `_find_recommended_retention`: the first row minimizing
`expected_net` (Python's `min` with key returns the first minimum); `none`
for an empty table. -/
def find_recommended_retention : List RetentionRow → Option RetentionRow
  | [] => none
  | row :: rest =>
    some (rest.foldl
      (fun best x => if x.expected_net < best.expected_net then x else best)
      row)

/-- Median of a list (`statistics.median`). -/
def listMedian (xs : List ℚ) : ℚ :=
  let sorted := sortAsc xs
  let n := xs.length
  if n % 2 = 1 then sorted.getD (n / 2) 0
  else (sorted.getD (n / 2 - 1) 0 + sorted.getD (n / 2) 0) / 2

/-- Result record of `run_portfolio_simulation`.  The standard deviation in
`scenario_statistics` is irrational-valued and outside every claim; the
other statistics are included. -/
structure SimResult where
  as_of_month : String
  scenario_count : ℕ
  var95 : ℚ
  var99 : ℚ
  tailvar99 : ℚ
  retention_table : List RetentionRow
  recommended : Option RetentionRow
  scen_mean : ℚ
  scen_median : ℚ
  scen_min : ℚ
  scen_max : ℚ
deriving DecidableEq, Repr

/-- The function `run_portfolio_simulation`.  `rng_at_call` is the pair of
global generator states (numpy, Python) at call time; the function's first
action is `np.random.seed(42); random.seed(42)`, which overwrites both, so
the parameter is discarded by construction — that is the source's
determinism mechanism, not a simplification. -/
def run_portfolio_simulation (rng_at_call : ℕ × ℕ) (as_of_month : String)
    (scenario_count : ℕ) (retention_grid : List ℚ)
    (rate_on_line? load? : Option ℚ) (history : Option (List ℤ)) : SimResult :=
  let npS : ℕ := 42
  let pyS : ℕ := 42
  let (scens, _, _) := generate_scenarios scenario_count history npS pyS
  let var95 := calculate_var scens 0.95
  let var99 := calculate_var scens 0.99
  let tailvar99 := calculate_tail_var scens 0.99
  let table := calculate_retention_table scens retention_grid rate_on_line? load?
  let recommended := find_recommended_retention table
  { as_of_month := as_of_month
    scenario_count := scenario_count
    var95 := var95
    var99 := var99
    tailvar99 := tailvar99
    retention_table := table
    recommended := recommended
    scen_mean := listMean scens
    scen_median := listMedian scens
    scen_min := (sortAsc scens).getD 0 0
    scen_max := (sortAsc scens).getD (scens.length - 1) 0 }

instance : IsTotal CarrierEval quoteKeyLe := by
  constructor
  intro a b
  unfold quoteKeyLe
  rcases lt_trichotomy a.expected_margin b.expected_margin with h | h | h
  · exact Or.inr (Or.inl h)
  · rcases le_total a.premium_cents b.premium_cents with hp | hp
    · exact Or.inl (Or.inr ⟨h, hp⟩)
    · exact Or.inr (Or.inr ⟨h.symm, hp⟩)
  · exact Or.inl (Or.inl h)

instance : IsTrans CarrierEval quoteKeyLe := by
  constructor
  intro a b c hab hbc
  unfold quoteKeyLe at *
  rcases hab with h1 | ⟨h1, h1p⟩ <;> rcases hbc with h2 | ⟨h2, h2p⟩
  · exact Or.inl (h2.trans h1)
  · exact Or.inl (h2 ▸ h1)
  · exact Or.inl (h1 ▸ h2)
  · exact Or.inr ⟨h1.trans h2, h1p.trans h2p⟩

/-! ### Concrete fixtures used by witness theorems -/

/-- A concrete shipping quote request (declared value 100 dollars). -/
def reqW : RequestData :=
  .shipping ⟨100, "standard", "CA", "low", "ground"⟩

/-- A carrier priced by the all-default shipping curve (base rate 0.55). -/
def c1W : CarrierInfo :=
  { id := "car1", shipping_curve := some {}, capacity := 5 }

/-- A carrier priced by a curve with base rate 1.0. -/
def c2W : CarrierInfo :=
  { id := "car2", shipping_curve := some { base_rate := some 1.0 }, capacity := 3 }

/-- The evaluation `create_quote` computes for `c2W` on `reqW` at risk
multiplier 1.00 and markup 0: premium 100 cents, margin 40. -/
def selW : CarrierEval := ⟨"car2", 100, 40⟩

/-- The evaluation `create_quote` computes for `c1W` on `reqW` at risk
multiplier 1.00 and markup 0: premium 55 cents, margin 22. -/
def e1W : CarrierEval := ⟨"car1", 55, 22⟩

/-! ### Theorems -/

/-- Helper: bound preservation for one capacity operation when the monthly
limit is at least 1. -/
theorem applyCapacityOp_bounds (limit : ℤ) (h : 1 ≤ limit) (op : CapOp)
    (s : Option ℤ) (h0 : 0 ≤ capacityRemaining limit s)
    (h1 : capacityRemaining limit s ≤ limit) :
    0 ≤ capacityRemaining limit (applyCapacityOp limit op s) ∧
      capacityRemaining limit (applyCapacityOp limit op s) ≤ limit := by
  cases op with
  | read => exact ⟨h0, h1⟩
  | reserve =>
    cases s with
    | none =>
      simp [applyCapacityOp, decrement_carrier_capacity, capacityRemaining]
      omega
    | some n =>
      simp only [applyCapacityOp, decrement_carrier_capacity,
        capacityRemaining, Option.getD_some] at *
      by_cases hn : 0 < n
      · simp [hn]; omega
      · simp [hn]; omega

/-- Helper: the `[0, limit]` bound holds after any run of capacity
operations from any in-bounds state, when the limit is at least 1. -/
theorem runCapacityOpsFrom_bounds (limit : ℤ) (h : 1 ≤ limit) :
    ∀ (ops : List CapOp) (s : Option ℤ),
      0 ≤ capacityRemaining limit s → capacityRemaining limit s ≤ limit →
      0 ≤ capacityRemaining limit (runCapacityOpsFrom limit s ops) ∧
        capacityRemaining limit (runCapacityOpsFrom limit s ops) ≤ limit := by
  intro ops
  induction ops with
  | nil => intro s h0 h1; exact ⟨h0, h1⟩
  | cons op rest ih =>
    intro s h0 h1
    have hb := applyCapacityOp_bounds limit h op s h0 h1
    exact ih (applyCapacityOp limit op s) hb.1 hb.2

/-- C1 counterexample.  For a carrier whose configured monthly limit is 0,
the first bind-time reserve on a fresh (carrier, month) key reports success
even though the remaining count before the call (the monthly limit, 0) is
not strictly positive, and it leaves the stored remaining count at -1; so
success is not equivalent to a strictly positive prior remaining count. -/
theorem c1_reserve_counterexample :
    ¬ (((decrement_carrier_capacity (some 0) none).1 = true) ↔
        0 < capacityRemaining 0 none) ∧
    (decrement_carrier_capacity (some 0) none).1 = true ∧
    (decrement_carrier_capacity (some 0) none).2 = some (-1) := by
  refine ⟨?_, rfl, rfl⟩
  intro hiff
  have := hiff.mp rfl
  simp [capacityRemaining] at this

/-- C1 (amended): for every existing carrier whose configured monthly limit
is at least 1, the bind-time reserve `decrement_carrier_capacity` succeeds
if and only if the remaining count before the call (initialized to the
monthly limit on first use of the (carrier, month) key) is strictly
positive; on success the remaining count decreases by exactly 1, and on
failure the stored state is unchanged. -/
theorem c1_reserve_success_iff (limit : ℤ) (h : 1 ≤ limit) (s : Option ℤ) :
    (((decrement_carrier_capacity (some limit) s).1 = true) ↔
      0 < capacityRemaining limit s) ∧
    ((decrement_carrier_capacity (some limit) s).1 = true →
      capacityRemaining limit (decrement_carrier_capacity (some limit) s).2 =
        capacityRemaining limit s - 1) ∧
    ((decrement_carrier_capacity (some limit) s).1 = false →
      (decrement_carrier_capacity (some limit) s).2 = s) := by
  cases s with
  | none =>
    simp [decrement_carrier_capacity, capacityRemaining]
    omega
  | some n =>
    by_cases hn : 0 < n
    · simp [decrement_carrier_capacity, capacityRemaining, hn]
    · simp [decrement_carrier_capacity, capacityRemaining, hn]

/-- C1 witness: the amended reserve property at limit 2 on a fresh key. -/
theorem c1_reserve_witness :
    (1 : ℤ) ≤ 2 ∧
    ((((decrement_carrier_capacity (some 2) none).1 = true) ↔
        0 < capacityRemaining 2 none) ∧
      (((decrement_carrier_capacity (some 2) none).1 = true →
        capacityRemaining 2 (decrement_carrier_capacity (some 2) none).2 =
          capacityRemaining 2 none - 1)) ∧
      ((decrement_carrier_capacity (some 2) none).1 = false →
        (decrement_carrier_capacity (some 2) none).2 = none)) :=
  ⟨by decide, c1_reserve_success_iff 2 (by decide) none⟩

/-- C2 counterexample.  For a carrier with monthly limit 0, a single
reserve from the uninitialized state drives the stored remaining count to
-1, outside `[0, monthly_limit]`. -/
theorem c2_invariant_counterexample :
    capacityRemaining 0 (runCapacityOps 0 [CapOp.reserve]) = -1 ∧
    ¬ 0 ≤ capacityRemaining 0 (runCapacityOps 0 [CapOp.reserve]) := by
  constructor
  · rfl
  · decide

/-- C2 (amended): for every carrier with monthly limit at least 1 and every
sequence of reserve and read operations from the uninitialized state, the
remaining count stays in `[0, monthly_limit]`; moreover (for any limit and
any state) no single operation ever increases the remaining count. -/
theorem c2_capacity_invariant (limit : ℤ) (h : 1 ≤ limit)
    (ops : List CapOp) :
    (0 ≤ capacityRemaining limit (runCapacityOps limit ops) ∧
      capacityRemaining limit (runCapacityOps limit ops) ≤ limit) ∧
    (∀ (op : CapOp) (s : Option ℤ),
      capacityRemaining limit (applyCapacityOp limit op s) ≤
        capacityRemaining limit s) := by
  constructor
  · exact runCapacityOpsFrom_bounds limit h ops none (by simp [capacityRemaining]; omega)
      (by simp [capacityRemaining])
  · intro op s
    cases op with
    | read => simp [applyCapacityOp]
    | reserve =>
      cases s with
      | none => simp [applyCapacityOp, decrement_carrier_capacity, capacityRemaining]
      | some n =>
        by_cases hn : 0 < n <;>
          simp [applyCapacityOp, decrement_carrier_capacity, capacityRemaining, hn]

/-- C2 witness: the invariant at limit 1 after two reserves and a read. -/
theorem c2_capacity_invariant_witness :
    (1 : ℤ) ≤ 1 ∧
    (0 ≤ capacityRemaining 1
        (runCapacityOps 1 [CapOp.reserve, CapOp.read, CapOp.reserve]) ∧
      capacityRemaining 1
        (runCapacityOps 1 [CapOp.reserve, CapOp.read, CapOp.reserve]) ≤ 1) :=
  ⟨by decide,
    (c2_capacity_invariant 1 (by decide)
      [CapOp.reserve, CapOp.read, CapOp.reserve]).1⟩

/-- Helper: one unfolding step of `atomicReserveRun`. -/
theorem atomicReserveRun_succ (k : ℤ) (n : ℕ) :
    atomicReserveRun k (n + 1) =
      ((atomicReserveRun k n).1 +
        (if (atomicReserve (atomicReserveRun k n).2).1 then 1 else 0),
       (atomicReserve (atomicReserveRun k n).2).2) := rfl

/-- Helper: the atomic reserve demanded by the specification yields exactly
`min N k` successes with final remaining `max 0 (k - N)`. -/
theorem atomicReserveRun_spec (k : ℕ) :
    ∀ N : ℕ, (atomicReserveRun (k : ℤ) N).1 = min N k ∧
      (atomicReserveRun (k : ℤ) N).2 = max 0 ((k : ℤ) - N) := by
  intro N
  induction N with
  | zero => simp [atomicReserveRun]
  | succ n ih =>
    obtain ⟨ih1, ih2⟩ := ih
    rw [atomicReserveRun_succ, ih1, ih2]
    by_cases hr : (0 : ℤ) < max 0 ((k : ℤ) - n)
    · have e1 : atomicReserve (max 0 ((k : ℤ) - n)) =
          (true, max 0 ((k : ℤ) - n) - 1) := by
        simp [atomicReserve, hr]
      rw [e1]
      dsimp only
      rw [show (if true = true then (1 : ℕ) else 0) = 1 from rfl]
      constructor <;> omega
    · have e1 : atomicReserve (max 0 ((k : ℤ) - n)) =
          (false, max 0 ((k : ℤ) - n)) := by
        simp [atomicReserve, hr]
      rw [e1]
      dsimp only
      rw [show (if false = true then (1 : ℕ) else 0) = 0 from rfl]
      constructor <;> omega

/-- C3: the bind-time reserve is not atomic — its ORM read and its
conditional write are separate steps.  With the counter initialized to
`k = 1` and `N = 2` concurrent reserve calls, the interleaving "both read,
then both write" makes both calls succeed (2 successes instead of
`min 2 1 = 1`), violating the claimed property; the atomic
read-decrement the specification demands does satisfy it: exactly
`min N k` successes and final remaining `max 0 (k - N)` for every `N`
and `k`. -/
theorem c3_concurrent_reserve :
    (rmwRun (rmwInit 1 2) [0, 1, 0, 1]).remaining = 0 ∧
    rmwSuccesses (rmwRun (rmwInit 1 2) [0, 1, 0, 1]) = 2 ∧
    (2 : ℕ) ≠ min 2 1 ∧
    (∀ N k : ℕ, (atomicReserveRun (k : ℤ) N).1 = min N k ∧
      (atomicReserveRun (k : ℤ) N).2 = max 0 ((k : ℤ) - N)) :=
  ⟨by decide, by decide, by decide, fun N k => atomicReserveRun_spec k N⟩

/-- Helper: the band-A case of the step function. -/
theorem map_band_eq_A_iff (score : ℚ) :
    map_risk_score_to_band score = ("A", 0.90) ↔ score < 0.4 := by
  unfold map_risk_score_to_band
  split_ifs with h1 h2 h3 h4 <;> simp_all [Prod.mk.injEq] <;>
    first
    | (constructor <;> linarith)
    | (intros; linarith)
    | linarith

/-- Helper: the band-B case of the step function. -/
theorem map_band_eq_B_iff (score : ℚ) :
    map_risk_score_to_band score = ("B", 1.00) ↔ 0.4 ≤ score ∧ score < 0.8 := by
  unfold map_risk_score_to_band
  split_ifs with h1 h2 h3 h4 <;> simp_all [Prod.mk.injEq] <;>
    first
    | (constructor <;> linarith)
    | (intros; linarith)
    | linarith

/-- Helper: the band-C case of the step function. -/
theorem map_band_eq_C_iff (score : ℚ) :
    map_risk_score_to_band score = ("C", 1.10) ↔ 0.8 ≤ score ∧ score < 1.2 := by
  unfold map_risk_score_to_band
  split_ifs with h1 h2 h3 h4 <;> simp_all [Prod.mk.injEq] <;>
    first
    | (constructor <;> linarith)
    | (intros; linarith)
    | linarith

/-- Helper: the band-D case of the step function. -/
theorem map_band_eq_D_iff (score : ℚ) :
    map_risk_score_to_band score = ("D", 1.25) ↔ 1.2 ≤ score ∧ score < 1.6 := by
  unfold map_risk_score_to_band
  split_ifs with h1 h2 h3 h4 <;> simp_all [Prod.mk.injEq] <;>
    first
    | (constructor <;> linarith)
    | (intros; linarith)
    | linarith

/-- Helper: the band-E case of the step function. -/
theorem map_band_eq_E_iff (score : ℚ) :
    map_risk_score_to_band score = ("E", 1.40) ↔ 1.6 ≤ score := by
  unfold map_risk_score_to_band
  split_ifs with h1 h2 h3 h4 <;> simp_all [Prod.mk.injEq] <;>
    first
    | (constructor <;> linarith)
    | (intros; linarith)
    | linarith

/-- C5: the band mapping is a total step function with half-open lower
boundaries: every score is assigned exactly one of the five (band,
multiplier) pairs, characterized by the stated intervals (in particular a
score of exactly 0.4 maps to B, not A), and both products' risk assessments
use this same mapping. -/
theorem c5_band_step_function (score : ℚ) :
    (map_risk_score_to_band score = ("A", 0.90) ↔ score < 0.4) ∧
    (map_risk_score_to_band score = ("B", 1.00) ↔ 0.4 ≤ score ∧ score < 0.8) ∧
    (map_risk_score_to_band score = ("C", 1.10) ↔ 0.8 ≤ score ∧ score < 1.2) ∧
    (map_risk_score_to_band score = ("D", 1.25) ↔ 1.2 ≤ score ∧ score < 1.6) ∧
    (map_risk_score_to_band score = ("E", 1.40) ↔ 1.6 ≤ score) ∧
    (map_risk_score_to_band score = ("A", 0.90) ∨
      map_risk_score_to_band score = ("B", 1.00) ∨
      map_risk_score_to_band score = ("C", 1.10) ∨
      map_risk_score_to_band score = ("D", 1.25) ∨
      map_risk_score_to_band score = ("E", 1.40)) ∧
    map_risk_score_to_band (0.4 : ℚ) = ("B", 1.00) ∧
    (∀ req : RequestData,
      (calculate_risk_assessment req).risk_band =
        (map_risk_score_to_band (riskScoreOf req)).1 ∧
      (calculate_risk_assessment req).risk_multiplier =
        (map_risk_score_to_band (riskScoreOf req)).2) := by
  refine ⟨map_band_eq_A_iff score, map_band_eq_B_iff score,
    map_band_eq_C_iff score, map_band_eq_D_iff score, map_band_eq_E_iff score,
    ?_, ?_, ?_⟩
  · unfold map_risk_score_to_band
    split_ifs <;> simp
  · unfold map_risk_score_to_band
    rw [if_neg (by norm_num), if_pos (by norm_num)]
  · intro req
    exact ⟨rfl, rfl⟩

/-- C4: for every shipping input, the returned premium in cents equals the
half-to-even rounding of
`(declaredValue/100) * baseRate * categoryMult * destMult * serviceMult *
riskMultiplier * (1 + partnerMarkup) * 100` — exactly, hence within the
claimed ±1 rounding tolerance — where each multiplier is looked up in the
carrier's pricing curve and is 1.0 when the curve has no entry for it. -/
theorem c4_shipping_premium_formula (r : ShippingRequest)
    (risk_multiplier partner_markup_pct : ℚ) (curve : ShippingCurve) :
    (calculate_shipping_premium r risk_multiplier partner_markup_pct curve).1 =
      pyRound ((r.declared_value / 100) * curve.base_rate.getD 0.55 *
        shippingCategoryMult curve r.item_category *
        shippingDestMult curve r.destination_risk *
        shippingServiceMult curve r.service_level *
        risk_multiplier * (1 + partner_markup_pct) * 100) ∧
    |(calculate_shipping_premium r risk_multiplier partner_markup_pct curve).1 -
      pyRound ((r.declared_value / 100) * curve.base_rate.getD 0.55 *
        shippingCategoryMult curve r.item_category *
        shippingDestMult curve r.destination_risk *
        shippingServiceMult curve r.service_level *
        risk_multiplier * (1 + partner_markup_pct) * 100)| ≤ 1 ∧
    (curve.category_multiplier = [] → curve.category_multipliers = [] →
      ∀ cat, shippingCategoryMult curve cat = 1) ∧
    (curve.destination_multiplier = [] → curve.destination_multipliers = [] →
      ∀ dest, shippingDestMult curve dest = 1) ∧
    (curve.service_level_multiplier = [] → curve.service_multipliers = [] →
      ∀ svc, shippingServiceMult curve svc = 1) := by
  have he : (calculate_shipping_premium r risk_multiplier partner_markup_pct
      curve).1 =
      pyRound ((r.declared_value / 100) * curve.base_rate.getD 0.55 *
        shippingCategoryMult curve r.item_category *
        shippingDestMult curve r.destination_risk *
        shippingServiceMult curve r.service_level *
        risk_multiplier * (1 + partner_markup_pct) * 100) := by
    simp only [calculate_shipping_premium]
  refine ⟨he, ?_, ?_, ?_, ?_⟩
  · rw [he]
    simp
  · intro h1 h2 cat
    simp [shippingCategoryMult, lookupD, h1, h2]
    try norm_num
  · intro h1 h2 dest
    simp [shippingDestMult, lookupD, h1, h2]
    try norm_num
  · intro h1 h2 svc
    simp [shippingServiceMult, lookupD, h1, h2]
    try norm_num

/-- C4 witness: the multiplier defaults of the empty curve, obtained from
the theorem at a concrete input. -/
theorem c4_shipping_premium_witness :
    ({} : ShippingCurve).category_multiplier = [] ∧
    shippingCategoryMult {} "standard" = 1 ∧
    shippingDestMult {} "low" = 1 ∧
    shippingServiceMult {} "ground" = 1 :=
  ⟨rfl,
    (c4_shipping_premium_formula ⟨100, "standard", "CA", "low", "ground"⟩
      1 0 {}).2.2.1 rfl rfl "standard",
    (c4_shipping_premium_formula ⟨100, "standard", "CA", "low", "ground"⟩
      1 0 {}).2.2.2.1 rfl rfl "low",
    (c4_shipping_premium_formula ⟨100, "standard", "CA", "low", "ground"⟩
      1 0 {}).2.2.2.2 rfl rfl "ground"⟩

/-- C8: two runs of the portfolio simulation with identical arguments
(same month, scenario count, retention grid, reinsurance parameters and
historical premium data) return identical results — in particular identical
VaR95, VaR99, TailVaR99 and retention tables — regardless of the global
generator states at call time, because the function re-seeds both
generators with the fixed seed 42 before drawing. -/
theorem c8_simulation_deterministic (rng1 rng2 : ℕ × ℕ) (as_of_month : String)
    (scenario_count : ℕ) (retention_grid : List ℚ)
    (rate_on_line? load? : Option ℚ) (history : Option (List ℤ)) :
    run_portfolio_simulation rng1 as_of_month scenario_count retention_grid
        rate_on_line? load? history =
      run_portfolio_simulation rng2 as_of_month scenario_count retention_grid
        rate_on_line? load? history := rfl

/-- Helper: concrete evaluation of the history scenario loop on the single
base draw -100 from Python-generator state 0, where the 5% tail test
fires. -/
theorem buildHistory_neg_eval :
    (buildHistoryScenarios [-100] 0).1 = [-300] := by
  have hu : lcgUnit 0 < 0.05 := by
    unfold lcgUnit
    norm_num
  unfold buildHistoryScenarios
  rw [if_pos hu]
  unfold buildHistoryScenarios
  norm_num

/-- C9 counterexample.  A draw selected for the 5% tail event is multiplied
by 3 without the `max(0, ...)` floor: from Python-generator state 0 (where
the tail test fires), the single base draw -100 yields the scenario value
-300, so not every generated scenario value is non-negative. -/
theorem c9_tail_floor_counterexample :
    (buildHistoryScenarios [-100] 0).1 = [-300] ∧
    ¬ (∀ x ∈ (buildHistoryScenarios [-100] 0).1, 0 ≤ x) := by
  refine ⟨buildHistory_neg_eval, ?_⟩
  intro hall
  have := hall (-300) (by rw [buildHistory_neg_eval]; exact List.mem_singleton.mpr rfl)
  linarith

/-- C9 (amended): in the history-calibrated scenario loop, every draw not
selected for the tail event is floored at zero before inclusion; a draw
selected for the 5% tail event is included as three times the draw without
flooring, so a scenario value is either non-negative or equals `3 * d` for
some negative base draw `d`. -/
theorem c9_scenario_floor (draws : List ℚ) (s : ℕ) :
    ∀ x ∈ (buildHistoryScenarios draws s).1,
      0 ≤ x ∨ ∃ d ∈ draws, d < 0 ∧ x = d * 3 := by
  induction draws generalizing s with
  | nil =>
    intro x hx
    simp [buildHistoryScenarios] at hx
  | cons d ds ih =>
    intro x hx
    rw [buildHistoryScenarios] at hx
    simp only [List.mem_cons] at hx
    rcases hx with hx | hx
    · by_cases ht : lcgUnit s < 0.05
      · rw [if_pos ht] at hx
        rcases le_or_lt 0 d with hd | hd
        · left
          rw [hx]
          positivity
        · right
          exact ⟨d, List.mem_cons_self d ds, hd, by rw [hx]; norm_num⟩
      · rw [if_neg ht] at hx
        left
        rw [hx]
        exact le_max_left 0 d
    · rcases ih (lcgNext s) x hx with h | ⟨d', hd', hneg, hx3⟩
      · exact Or.inl h
      · exact Or.inr ⟨d', List.mem_cons_of_mem d hd', hneg, hx3⟩

/-- C9 witness: the amended property applied to the concrete tail scenario
of the counterexample input. -/
theorem c9_scenario_floor_witness :
    (-300 : ℚ) ∈ (buildHistoryScenarios [-100] 0).1 ∧
    (0 ≤ (-300 : ℚ) ∨ ∃ d ∈ ([-100] : List ℚ), d < 0 ∧ (-300 : ℚ) = d * 3) :=
  ⟨by rw [buildHistory_neg_eval]; exact List.mem_singleton.mpr rfl,
   c9_scenario_floor [-100] 0 (-300)
     (by rw [buildHistory_neg_eval]; exact List.mem_singleton.mpr rfl)⟩

/-- Helper: the block decision of the compliance loop, generalized over the
starting accumulator. -/
theorem evalRulesFrom_block_iff (product : String) (ctx : ComplianceContext) :
    ∀ (rules : List ComplianceRule) (acc : ComplianceAcc),
      (evalRulesFrom product ctx acc rules).decision = "block" ↔
        (acc.decision = "block" ∨ ∃ r ∈ rules, r.applies_to = product ∧
          ruleApplies r ctx = true ∧ r.type = "block") := by
  intro rules
  induction rules with
  | nil => intro acc; simp [evalRulesFrom]
  | cons r rest ih =>
    intro acc
    simp only [evalRulesFrom]
    by_cases hp : r.applies_to = product
    · by_cases ha : ruleApplies r ctx
      · by_cases hb : r.type = "block"
        · rw [ih]
          simp [hp, ha, hb, complianceStep, List.exists_mem_cons_iff]
        · rw [ih]
          simp [hp, ha, hb, complianceStep, List.exists_mem_cons_iff]
      · rw [if_pos (by simp [hp]), if_neg (by simp [ha]), ih]
        simp [List.exists_mem_cons_iff, hp]
        tauto
    · rw [if_neg (by simp [hp]), ih]
      simp [List.exists_mem_cons_iff, hp]

/-- Helper: the compliance loop either keeps the starting decision or sets
it to block. -/
theorem evalRulesFrom_decision_cases (product : String)
    (ctx : ComplianceContext) :
    ∀ (rules : List ComplianceRule) (acc : ComplianceAcc),
      (evalRulesFrom product ctx acc rules).decision = acc.decision ∨
        (evalRulesFrom product ctx acc rules).decision = "block" := by
  intro rules
  induction rules with
  | nil => intro acc; left; rfl
  | cons r rest ih =>
    intro acc
    simp only [evalRulesFrom]
    by_cases hp : (r.applies_to == product) = true
    · by_cases ha : ruleApplies r ctx
      · rcases ih (complianceStep acc r) with h | h
        · rw [if_pos hp, if_pos ha]
          by_cases hb : r.type = "block"
          · right; rw [h]; simp [complianceStep, hb]
          · left; rw [h]; simp [complianceStep, hb]
        · right; rw [if_pos hp, if_pos ha]; exact h
      · rw [if_pos hp, if_neg (by simp [ha])]
        exact ih acc
    · rw [if_neg hp]
      exact ih acc

/-- Helper: a non-empty criteria dictionary produces at least one collected
result. -/
theorem criteriaResults_ne_nil (c : RuleCriteria) (ctx : ComplianceContext)
    (h : criteriaIsEmpty c = false) : criteriaResults c ctx ≠ [] := by
  rcases c with ⟨f1, f2, f3, f4, f5, f6, f7, f8⟩
  cases f1 <;> cases f2 <;> cases f3 <;> cases f4 <;> cases f5 <;> cases f6 <;>
    cases f7 <;> cases f8 <;> simp_all [criteriaResults, criteriaIsEmpty]

/-- C7: the compliance evaluator decides block if and only if some rule for
the matching product applies (its criteria dictionary is absent or empty,
or all of its recognized predicates hold — logical AND) and has kind block,
and it decides allow otherwise; consequently a block set by one rule is
never reverted by a later rule (appending rules preserves block), a
matching rule with an empty criteria set always applies, and for a
non-empty criteria set the evaluation is the conjunction of its collected
predicate results. -/
theorem c7_compliance_block_iff (rules : List ComplianceRule)
    (product : String) (ctx : ComplianceContext) :
    ((evaluate_rules rules product ctx).decision = "block" ↔
      ∃ r ∈ rules, r.applies_to = product ∧ ruleApplies r ctx = true ∧
        r.type = "block") ∧
    ((evaluate_rules rules product ctx).decision = "allow" ↔
      ¬ ∃ r ∈ rules, r.applies_to = product ∧ ruleApplies r ctx = true ∧
        r.type = "block") ∧
    (∀ more, (evaluate_rules rules product ctx).decision = "block" →
      (evaluate_rules (rules ++ more) product ctx).decision = "block") ∧
    (∀ (r : ComplianceRule) (c : RuleCriteria), r.criteria = some c →
      criteriaIsEmpty c = true → ruleApplies r ctx = true) ∧
    (∀ c : RuleCriteria, criteriaIsEmpty c = false →
      (evaluate_criteria c ctx = true ↔
        ∀ b ∈ criteriaResults c ctx, b = true)) := by
  have hmain : ∀ rs : List ComplianceRule,
      (evaluate_rules rs product ctx).decision = "block" ↔
        ∃ r ∈ rs, r.applies_to = product ∧ ruleApplies r ctx = true ∧
          r.type = "block" := by
    intro rs
    rw [evaluate_rules, evalRulesFrom_block_iff]
    simp
  refine ⟨hmain rules, ?_, ?_, ?_, ?_⟩
  · constructor
    · intro hallow hex
      have hb := (hmain rules).mpr hex
      rw [hallow] at hb
      simp at hb
    · intro hnex
      rcases evalRulesFrom_decision_cases product ctx rules ⟨"allow", [], []⟩
        with h | h
      · exact h
      · exact absurd ((hmain rules).mp h) hnex
  · intro more h
    rcases (hmain rules).mp h with ⟨r, hr, hprops⟩
    exact (hmain (rules ++ more)).mpr ⟨r, List.mem_append_left more hr, hprops⟩
  · intro r c hc he
    rw [ruleApplies, hc]
    simp [he]
  · intro c hce
    have hne := criteriaResults_ne_nil c ctx hce
    rw [evaluate_criteria]
    simp [List.all_eq_true, List.isEmpty_iff, hne]

/-- C7 witness: a block rule for product ppi with a matching state
criterion blocks, via the theorem's characterization. -/
theorem c7_compliance_witness :
    (evaluate_rules
      [⟨"ban_ppi_states", "ppi", "block",
        some { state_in := some ["GA", "VT"] }, "PPI is banned"⟩]
      "ppi" { state := some "GA" }).decision = "block" :=
  (c7_compliance_block_iff
    [⟨"ban_ppi_states", "ppi", "block",
        some { state_in := some ["GA", "VT"] }, "PPI is banned"⟩]
      "ppi" { state := some "GA" }).1.mpr
    ⟨⟨"ban_ppi_states", "ppi", "block",
        some { state_in := some ["GA", "VT"] }, "PPI is banned"⟩,
      List.mem_singleton.mpr rfl, rfl, by decide, rfl⟩

/-- Helper: the quote sort key is reflexive. -/
theorem quoteKeyLe_refl (a : CarrierEval) : quoteKeyLe a a :=
  Or.inr ⟨rfl, le_refl _⟩

/-- Helper: what the sort key order means for margins and premiums. -/
theorem quoteKeyLe_margin_le {a b : CarrierEval} (h : quoteKeyLe a b) :
    b.expected_margin ≤ a.expected_margin ∧
      (b.expected_margin = a.expected_margin →
        a.premium_cents ≤ b.premium_cents) := by
  rcases h with h | ⟨he, hp⟩
  · exact ⟨le_of_lt h, fun heq => absurd heq (ne_of_lt h)⟩
  · exact ⟨le_of_eq he.symm, fun _ => hp⟩

/-- Helper: the shape of a successful single-carrier evaluation. -/
theorem eligibleEval_spec {req : RequestData} {risk_band : String}
    {risk_multiplier partner_markup_pct : ℚ} {c : CarrierInfo}
    {ev : CarrierEval}
    (h : eligibleEval req risk_band risk_multiplier partner_markup_pct c =
      some ev) :
    carrierChecks req risk_band c = true ∧
    carrierPremium req risk_band risk_multiplier partner_markup_pct c =
      some ev.premium_cents ∧
    ev.carrier_id = c.id ∧
    ev.expected_margin = expectedMargin risk_multiplier ev.premium_cents := by
  unfold eligibleEval at h
  by_cases hc : carrierChecks req risk_band c = true
  · rw [if_pos hc] at h
    cases hp : carrierPremium req risk_band risk_multiplier partner_markup_pct c with
    | none => rw [hp] at h; simp at h
    | some p =>
      rw [hp] at h
      simp only [Option.some.injEq] at h
      subst h
      exact ⟨hc, rfl, rfl, rfl⟩
  · rw [if_neg hc] at h
    simp at h

/-- Helper: every entry of the eligible list carries the margin formula of
its own premium. -/
theorem mem_eligible_margin {req : RequestData} {risk_band : String}
    {risk_multiplier partner_markup_pct : ℚ} {carriers : List CarrierInfo}
    {e : CarrierEval}
    (h : e ∈ carriers.filterMap
      (eligibleEval req risk_band risk_multiplier partner_markup_pct)) :
    e.expected_margin = expectedMargin risk_multiplier e.premium_cents := by
  rcases List.mem_filterMap.mp h with ⟨c, _, hev⟩
  exact (eligibleEval_spec hev).2.2.2

/-- Helper: the selection is `none` exactly when no carrier is eligible. -/
theorem select_carrier_none_iff (req : RequestData) (risk_band : String)
    (risk_multiplier partner_markup_pct : ℚ) (carriers : List CarrierInfo) :
    select_carrier req risk_band risk_multiplier partner_markup_pct carriers =
        none ↔
      carriers.filterMap
        (eligibleEval req risk_band risk_multiplier partner_markup_pct) = [] := by
  unfold select_carrier
  rw [List.head?_eq_none_iff]
  constructor
  · intro h
    have hp := List.perm_insertionSort quoteKeyLe
      (carriers.filterMap
        (eligibleEval req risk_band risk_multiplier partner_markup_pct))
    rw [h] at hp
    exact (List.Perm.nil_eq hp).symm
  · intro h
    rw [h]
    rfl

/-- Helper: a selected carrier evaluation is an eligible entry that is
greatest in the sort-key order among all eligible entries. -/
theorem select_carrier_some_spec {req : RequestData} {risk_band : String}
    {risk_multiplier partner_markup_pct : ℚ} {carriers : List CarrierInfo}
    {sel : CarrierEval}
    (h : select_carrier req risk_band risk_multiplier partner_markup_pct
      carriers = some sel) :
    sel ∈ carriers.filterMap
        (eligibleEval req risk_band risk_multiplier partner_markup_pct) ∧
    ∀ e ∈ carriers.filterMap
        (eligibleEval req risk_band risk_multiplier partner_markup_pct),
      quoteKeyLe sel e := by
  simp only [select_carrier] at h
  cases hs : List.insertionSort quoteKeyLe
      (carriers.filterMap
        (eligibleEval req risk_band risk_multiplier partner_markup_pct)) with
  | nil => rw [hs] at h; simp at h
  | cons a rest =>
    rw [hs] at h
    simp only [List.head?_cons, Option.some.injEq] at h
    subst h
    have hperm := List.perm_insertionSort quoteKeyLe
      (carriers.filterMap
        (eligibleEval req risk_band risk_multiplier partner_markup_pct))
    rw [hs] at hperm
    have hsorted := List.sorted_insertionSort quoteKeyLe
      (carriers.filterMap
        (eligibleEval req risk_band risk_multiplier partner_markup_pct))
    rw [hs, List.sorted_cons] at hsorted
    constructor
    · exact hperm.mem_iff.mp (List.mem_cons_self a rest)
    · intro e he
      have : e ∈ a :: rest := hperm.mem_iff.mpr he
      rcases List.mem_cons.mp this with rfl | hmem
      · exact quoteKeyLe_refl e
      · exact hsorted.1 e hmem

/-- C6: the quote router evaluates every carrier, keeping exactly those
that pass the appetite and capacity checks and whose own pricing curve
prices the request; each kept entry's expected margin is
`premium - premium * 0.60 * riskMultiplier` on that carrier's own premium;
the selection is `none` (the NoEligibleCarrier failure) exactly when no
carrier is kept, and otherwise it is a kept entry with maximal expected
margin, with lowest premium among margin ties. -/
theorem c6_margin_ranked_selection (req : RequestData) (risk_band : String)
    (risk_multiplier partner_markup_pct : ℚ) (carriers : List CarrierInfo) :
    (select_carrier req risk_band risk_multiplier partner_markup_pct carriers =
        none ↔
      carriers.filterMap
        (eligibleEval req risk_band risk_multiplier partner_markup_pct) = []) ∧
    (∀ (c : CarrierInfo) (ev : CarrierEval),
      eligibleEval req risk_band risk_multiplier partner_markup_pct c =
        some ev →
      carrierChecks req risk_band c = true ∧
      carrierPremium req risk_band risk_multiplier partner_markup_pct c =
        some ev.premium_cents ∧
      ev.carrier_id = c.id ∧
      ev.expected_margin = expectedMargin risk_multiplier ev.premium_cents) ∧
    (∀ sel : CarrierEval,
      select_carrier req risk_band risk_multiplier partner_markup_pct carriers =
        some sel →
      (∃ c ∈ carriers,
        eligibleEval req risk_band risk_multiplier partner_markup_pct c =
          some sel) ∧
      ∀ e ∈ carriers.filterMap
          (eligibleEval req risk_band risk_multiplier partner_markup_pct),
        e.expected_margin ≤ sel.expected_margin ∧
        (e.expected_margin = sel.expected_margin →
          sel.premium_cents ≤ e.premium_cents)) := by
  refine ⟨select_carrier_none_iff req risk_band risk_multiplier
      partner_markup_pct carriers,
    fun c ev h => eligibleEval_spec h,
    fun sel hsel => ?_⟩
  obtain ⟨hmem, hall⟩ := select_carrier_some_spec hsel
  exact ⟨List.mem_filterMap.mp hmem,
    fun e he => quoteKeyLe_margin_le (hall e he)⟩

/-- Helper: concrete evaluation of carrier `c1W` on the fixture request at
risk multiplier 1 and markup 0. -/
theorem eligibleEval_c1W : eligibleEval reqW "B" 1 0 c1W = some e1W := by
  rw [eligibleEval, if_pos (by decide)]
  have hp : carrierPremium reqW "B" 1 0 c1W = some 55 := by
    simp [carrierPremium, c1W, reqW, calculate_shipping_premium,
      shippingCategoryMult, shippingDestMult, shippingServiceMult, lookupD,
      pyRound]
    norm_num
  rw [hp]
  simp only [e1W, c1W, expectedMargin, Option.some.injEq, CarrierEval.mk.injEq]
  norm_num

/-- Helper: concrete evaluation of carrier `c2W` on the fixture request at
risk multiplier 1 and markup 0. -/
theorem eligibleEval_c2W : eligibleEval reqW "B" 1 0 c2W = some selW := by
  rw [eligibleEval, if_pos (by decide)]
  have hp : carrierPremium reqW "B" 1 0 c2W = some 100 := by
    simp [carrierPremium, c2W, reqW, calculate_shipping_premium,
      shippingCategoryMult, shippingDestMult, shippingServiceMult, lookupD,
      pyRound]
    norm_num
  rw [hp]
  simp only [selW, c2W, expectedMargin, Option.some.injEq, CarrierEval.mk.injEq]
  norm_num

/-- Helper: the eligible list of the fixture carriers. -/
theorem filterMap_fixtures :
    [c1W, c2W].filterMap (eligibleEval reqW "B" 1 0) = [e1W, selW] := by
  simp [List.filterMap_cons, eligibleEval_c1W, eligibleEval_c2W]

/-- Helper: the selection on the fixture carriers picks `c2W`'s entry. -/
theorem select_fixtures :
    select_carrier reqW "B" 1 0 [c1W, c2W] = some selW := by
  have hno : ¬ quoteKeyLe e1W selW := by
    simp only [quoteKeyLe, e1W, selW]
    push_neg
    norm_num
  simp only [select_carrier, filterMap_fixtures]
  simp [List.insertionSort, List.orderedInsert, hno]

/-- C6 witness: the theorem applied to the fixture request and carriers:
carrier `c2W` passes the checks and is priced by its own curve, and the
selected entry has maximal margin with the premium tie-break against the
other eligible entry. -/
theorem c6_margin_ranked_selection_witness :
    (carrierChecks reqW "B" c2W = true ∧
      carrierPremium reqW "B" 1 0 c2W = some selW.premium_cents ∧
      selW.carrier_id = c2W.id ∧
      selW.expected_margin = expectedMargin 1 selW.premium_cents) ∧
    (∃ c ∈ [c1W, c2W], eligibleEval reqW "B" 1 0 c = some selW) ∧
    (e1W.expected_margin ≤ selW.expected_margin ∧
      (e1W.expected_margin = selW.expected_margin →
        selW.premium_cents ≤ e1W.premium_cents)) :=
  ⟨(c6_margin_ranked_selection reqW "B" 1 0 [c1W, c2W]).2.1 c2W selW
      eligibleEval_c2W,
    ((c6_margin_ranked_selection reqW "B" 1 0 [c1W, c2W]).2.2 selW
      select_fixtures).1,
    ((c6_margin_ranked_selection reqW "B" 1 0 [c1W, c2W]).2.2 selW
      select_fixtures).2 e1W
      (by rw [filterMap_fixtures]; exact List.mem_cons_self e1W [selW])⟩

/-- C10: the risk multiplier always lies in {0.90, 1.00, 1.10, 1.25, 1.40},
hence `0.60 * riskMultiplier < 1` and the expected margin
`premium - premium * 0.60 * riskMultiplier` is strictly increasing in the
premium; consequently the router's selection has maximal premium among the
eligible entries, and two eligible entries tie on margin only when their
premiums are exactly equal. -/
theorem c10_margin_strictly_monotone (score : ℚ) :
    ((map_risk_score_to_band score).2 = 0.90 ∨
      (map_risk_score_to_band score).2 = 1.00 ∨
      (map_risk_score_to_band score).2 = 1.10 ∨
      (map_risk_score_to_band score).2 = 1.25 ∨
      (map_risk_score_to_band score).2 = 1.40) ∧
    0.60 * (map_risk_score_to_band score).2 < 1 ∧
    (∀ p1 p2 : ℤ, p1 < p2 →
      expectedMargin (map_risk_score_to_band score).2 p1 <
        expectedMargin (map_risk_score_to_band score).2 p2) ∧
    (∀ (req : RequestData) (risk_band : String) (partner_markup_pct : ℚ)
        (carriers : List CarrierInfo) (sel : CarrierEval),
      select_carrier req risk_band (map_risk_score_to_band score).2
          partner_markup_pct carriers = some sel →
      ∀ e ∈ carriers.filterMap (eligibleEval req risk_band
          (map_risk_score_to_band score).2 partner_markup_pct),
        e.premium_cents ≤ sel.premium_cents ∧
        (e.expected_margin = sel.expected_margin →
          e.premium_cents = sel.premium_cents)) := by
  have hmem : (map_risk_score_to_band score).2 = 0.90 ∨
      (map_risk_score_to_band score).2 = 1.00 ∨
      (map_risk_score_to_band score).2 = 1.10 ∨
      (map_risk_score_to_band score).2 = 1.25 ∨
      (map_risk_score_to_band score).2 = 1.40 := by
    unfold map_risk_score_to_band
    split_ifs <;> simp
  have hlt : 0.60 * (map_risk_score_to_band score).2 < 1 := by
    rcases hmem with h | h | h | h | h <;> rw [h] <;> norm_num
  have hmono : ∀ p1 p2 : ℤ, p1 < p2 →
      expectedMargin (map_risk_score_to_band score).2 p1 <
        expectedMargin (map_risk_score_to_band score).2 p2 := by
    intro p1 p2 hp
    unfold expectedMargin
    have hc : (0 : ℚ) < 1 - 0.60 * (map_risk_score_to_band score).2 := by
      linarith
    have hp' : (p1 : ℚ) < (p2 : ℚ) := by exact_mod_cast hp
    nlinarith [mul_pos (sub_pos.mpr hp') hc]
  refine ⟨hmem, hlt, hmono, ?_⟩
  intro req risk_band partner_markup_pct carriers sel hsel e he
  obtain ⟨hmemsel, hall⟩ := select_carrier_some_spec hsel
  have hms := mem_eligible_margin hmemsel
  have hme := mem_eligible_margin he
  have hk := quoteKeyLe_margin_le (hall e he)
  constructor
  · by_contra hgt
    push_neg at hgt
    have hlt2 := hmono sel.premium_cents e.premium_cents hgt
    rw [← hms, ← hme] at hlt2
    exact absurd hk.1 (not_le.mpr hlt2)
  · intro heq
    by_contra hne
    rcases lt_or_gt_of_ne hne with hlt2 | hgt2
    · have := hmono e.premium_cents sel.premium_cents hlt2
      rw [← hms, ← hme] at this
      rw [heq] at this
      exact lt_irrefl _ this
    · have := hmono sel.premium_cents e.premium_cents hgt2
      rw [← hms, ← hme] at this
      rw [heq] at this
      exact lt_irrefl _ this

/-- Helper: the band multiplier at score 0.5 is 1. -/
theorem map_half_mult : (map_risk_score_to_band 0.5).2 = 1 := by
  rw [map_risk_score_to_band, if_neg (by norm_num), if_pos (by norm_num)]
  norm_num

/-- C10 witness: strict monotonicity of the margin at score 0.5 and
premiums 55 < 100, and maximal-premium selection on the fixture carriers. -/
theorem c10_margin_strictly_monotone_witness :
    ((55 : ℤ) < 100 ∧
      expectedMargin (map_risk_score_to_band 0.5).2 55 <
        expectedMargin (map_risk_score_to_band 0.5).2 100) ∧
    (e1W.premium_cents ≤ selW.premium_cents ∧
      (e1W.expected_margin = selW.expected_margin →
        e1W.premium_cents = selW.premium_cents)) :=
  ⟨⟨by decide,
    (c10_margin_strictly_monotone 0.5).2.2.1 55 100 (by decide)⟩,
   (c10_margin_strictly_monotone 0.5).2.2.2 reqW "B" 0 [c1W, c2W] selW
      (by rw [map_half_mult]; exact select_fixtures) e1W
      (by rw [map_half_mult, filterMap_fixtures]
          exact List.mem_cons_self e1W [selW])⟩
